import Mathlib

/-!
Shallow embedding of the telemetry simulator core of the refrigeration
dashboard repository. The repository holds two source files with the same
simulator: `src/components/RefrigerationDashboard.jsx` (embedded in
namespace `File1`) and a second, unnamed variant that adds translations
(embedded in namespace `File2`). JavaScript numbers are modelled as
rationals; each call to `Math.random()` is modelled as an explicit rational
parameter (a draw in `[0, 1)`); timestamps (milliseconds since epoch) are
modelled as integers. JavaScript booleans are `Bool`, with comparisons
wrapped in `decide`.
-/

/-- Per-channel simulation parameters, one entry of `SIMULATION_CONFIG`:
`{ baseline, variance, min, max }`. -/
structure ChannelConfig where
  baseline : ℚ
  variance : ℚ
  min : ℚ
  max : ℚ
deriving DecidableEq

/-- The six analog channels of `SIMULATION_CONFIG`. -/
structure SimConfig where
  caseTemp : ChannelConfig
  suctionTemp : ChannelConfig
  dischargeTemp : ChannelConfig
  evaporatorTemp : ChannelConfig
  txValvePosition : ChannelConfig
  txValveSuperheat : ChannelConfig
deriving DecidableEq

/-- The six analog values (`currentValues`, and the analog part of a data
point). -/
structure Values where
  caseTemp : ℚ
  suctionTemp : ℚ
  dischargeTemp : ℚ
  evaporatorTemp : ℚ
  txValvePosition : ℚ
  txValveSuperheat : ℚ
deriving DecidableEq

/-- The six named boolean equipment flags (`binaryStates`). -/
structure BinaryStates where
  defrostMode : Bool
  compressorRunning : Bool
  evaporatorFan : Bool
  caseLight : Bool
  doorSwitch : Bool
  alarmStatus : Bool
deriving DecidableEq

/-- One stored data point: a timestamp (ms since epoch) together with the
six analog values spread into the object. The display string `time` is
presentational and omitted. -/
structure Sample where
  timestamp : ℤ
  values : Values
deriving DecidableEq

/-- The simulator state owned by the component: the history `data`, the
equipment flags `binaryStates`, and the latest analog values
`currentValues`. -/
structure SimState where
  data : List Sample
  binaryStates : BinaryStates
  currentValues : Values
deriving DecidableEq

namespace File1

/-- `SIMULATION_CONFIG` of `RefrigerationDashboard.jsx` (lines 7-14). -/
def SIMULATION_CONFIG : SimConfig :=
  { caseTemp := { baseline := 35, variance := 2, min := 32, max := 40 }
    suctionTemp := { baseline := 20, variance := 3, min := 15, max := 25 }
    dischargeTemp := { baseline := 140, variance := 5, min := 130, max := 155 }
    evaporatorTemp := { baseline := 28, variance := 2, min := 25, max := 35 }
    txValvePosition := { baseline := 45, variance := 10, min := 20, max := 70 }
    txValveSuperheat := { baseline := 8, variance := 2, min := 4, max := 15 } }

/-- `generateValue` of `RefrigerationDashboard.jsx` (lines 17-30). `r1` is
the first `Math.random()` draw of the call and `r2` the second (the defrost
branch consumes only one draw, so `r2` is unused there). -/
def generateValue (config : ChannelConfig) (previousValue : ℚ)
    (inDefrost : Bool) (r1 r2 : ℚ) : ℚ :=
  if inDefrost then
    let defrostMultiplier : ℚ := if config.baseline < 50 then 3/2 else 11/10
    min config.max
      (previousValue + (r1 - 3/10) * config.variance * defrostMultiplier)
  else
    let target := config.baseline + (r1 - 1/2) * config.variance
    let change := (target - previousValue) * (3/10)
      + (r2 - 1/2) * config.variance * (1/2)
    max config.min (min config.max (previousValue + change))

/-- The initial-history bootstrap effect of `RefrigerationDashboard.jsx`
(lines 53-70): for `i = 60` down to `1`, push a sample with timestamp
`now - i * 5000` and each channel set to its baseline plus a uniform
jitter. The loop iteration with counter `i` is index `j = 60 - i` of the
resulting list, and consumes draws `rand (6*j)` through `rand (6*j + 5)`
in source order. -/
def initialData (now : ℤ) (rand : ℕ → ℚ) : List Sample :=
  (List.range 60).map (fun (j : ℕ) =>
    let k := 6 * j
    { timestamp := now - ((60 : ℤ) - (j : ℤ)) * 5000
      values :=
        { caseTemp := 35 + (rand k - 1/2) * 2
          suctionTemp := 20 + (rand (k + 1) - 1/2) * 2
          dischargeTemp := 140 + (rand (k + 2) - 1/2) * 5
          evaporatorTemp := 28 + (rand (k + 3) - 1/2) * 2
          txValvePosition := 45 + (rand (k + 4) - 1/2) * 10
          txValveSuperheat := 8 + (rand (k + 5) - 1/2) * 2 } })

/-- `newBinaryStates` of the tick callback (lines 83-90). `rStart`, `rEnd`,
`rDoor` are the `Math.random()` draws deciding defrost start, defrost end,
and the door; `caseTemp` is `currentValues.caseTemp` (the latest known
case temperature). -/
def newBinaryStates (s : BinaryStates) (caseTemp : ℚ)
    (rStart rEnd rDoor : ℚ) : BinaryStates :=
  let shouldStartDefrost := !s.defrostMode && decide (rStart < 1/20)
  let shouldEndDefrost := s.defrostMode && decide (rEnd < 3/10)
  { s with
    defrostMode :=
      if shouldStartDefrost then true
      else if shouldEndDefrost then false else s.defrostMode
    compressorRunning :=
      if shouldStartDefrost then false
      else if !s.defrostMode || shouldEndDefrost then true else false
    evaporatorFan := if s.defrostMode then false else true
    doorSwitch := decide (rDoor < 1/10)
    alarmStatus := decide (caseTemp > 38) || s.defrostMode }

/-- `newValues` of the tick callback (lines 93-100): one `generateValue`
call per channel, each passed the post-transition defrost flag. Channel
`c` (in source order `c = 0 .. 5`) consumes draws `rand (2*c)` and
`rand (2*c + 1)`. -/
def newValues (cur : Values) (inDefrost : Bool) (rand : ℕ → ℚ) : Values :=
  { caseTemp :=
      generateValue SIMULATION_CONFIG.caseTemp cur.caseTemp inDefrost
        (rand 0) (rand 1)
    suctionTemp :=
      generateValue SIMULATION_CONFIG.suctionTemp cur.suctionTemp inDefrost
        (rand 2) (rand 3)
    dischargeTemp :=
      generateValue SIMULATION_CONFIG.dischargeTemp cur.dischargeTemp
        inDefrost (rand 4) (rand 5)
    evaporatorTemp :=
      generateValue SIMULATION_CONFIG.evaporatorTemp cur.evaporatorTemp
        inDefrost (rand 6) (rand 7)
    txValvePosition :=
      generateValue SIMULATION_CONFIG.txValvePosition cur.txValvePosition
        inDefrost (rand 8) (rand 9)
    txValveSuperheat :=
      generateValue SIMULATION_CONFIG.txValveSuperheat cur.txValveSuperheat
        inDefrost (rand 10) (rand 11) }

/-- The `setData` updater of the tick callback (lines 108-112):
`[...prevData, newDataPoint].slice(-60)`. JavaScript `slice(-60)` clamps
the start index at `0`, which natural subtraction models exactly. -/
def updateData (prevData : List Sample) (newDataPoint : Sample) :
    List Sample :=
  let updated := prevData ++ [newDataPoint]
  updated.drop (updated.length - 60)

/-- One full tick of the interval callback (lines 76-116): compute the new
binary states from the pre-tick state and latest case temperature, then
the new analog values using the post-transition defrost flag, then append
the new data point to the history and publish the new state. -/
def tick (st : SimState) (now : ℤ) (rStart rEnd rDoor : ℚ)
    (rand : ℕ → ℚ) : SimState :=
  let nbs := newBinaryStates st.binaryStates st.currentValues.caseTemp
    rStart rEnd rDoor
  let nv := newValues st.currentValues nbs.defrostMode rand
  let newDataPoint : Sample := { timestamp := now, values := nv }
  { data := updateData st.data newDataPoint
    binaryStates := nbs
    currentValues := nv }

end File1

namespace File2

/-- `SIMULATION_CONFIG` of the unnamed translated variant (lines 73-80). -/
def SIMULATION_CONFIG : SimConfig :=
  { caseTemp := { baseline := 35, variance := 2, min := 32, max := 40 }
    suctionTemp := { baseline := 20, variance := 3, min := 15, max := 25 }
    dischargeTemp := { baseline := 140, variance := 5, min := 130, max := 155 }
    evaporatorTemp := { baseline := 28, variance := 2, min := 25, max := 35 }
    txValvePosition := { baseline := 45, variance := 10, min := 20, max := 70 }
    txValveSuperheat := { baseline := 8, variance := 2, min := 4, max := 15 } }

/-- `generateValue` of the unnamed translated variant (lines 83-96). -/
def generateValue (config : ChannelConfig) (previousValue : ℚ)
    (inDefrost : Bool) (r1 r2 : ℚ) : ℚ :=
  if inDefrost then
    let defrostMultiplier : ℚ := if config.baseline < 50 then 3/2 else 11/10
    min config.max
      (previousValue + (r1 - 3/10) * config.variance * defrostMultiplier)
  else
    let target := config.baseline + (r1 - 1/2) * config.variance
    let change := (target - previousValue) * (3/10)
      + (r2 - 1/2) * config.variance * (1/2)
    max config.min (min config.max (previousValue + change))

/-- The initial-history bootstrap effect of the unnamed translated variant
(lines 122-139), with the same indexing conventions as
`File1.initialData`. -/
def initialData (now : ℤ) (rand : ℕ → ℚ) : List Sample :=
  (List.range 60).map (fun (j : ℕ) =>
    let k := 6 * j
    { timestamp := now - ((60 : ℤ) - (j : ℤ)) * 5000
      values :=
        { caseTemp := 35 + (rand k - 1/2) * 2
          suctionTemp := 20 + (rand (k + 1) - 1/2) * 2
          dischargeTemp := 140 + (rand (k + 2) - 1/2) * 5
          evaporatorTemp := 28 + (rand (k + 3) - 1/2) * 2
          txValvePosition := 45 + (rand (k + 4) - 1/2) * 10
          txValveSuperheat := 8 + (rand (k + 5) - 1/2) * 2 } })

/-- `newBinaryStates` of the unnamed translated variant (lines 152-159). -/
def newBinaryStates (s : BinaryStates) (caseTemp : ℚ)
    (rStart rEnd rDoor : ℚ) : BinaryStates :=
  let shouldStartDefrost := !s.defrostMode && decide (rStart < 1/20)
  let shouldEndDefrost := s.defrostMode && decide (rEnd < 3/10)
  { s with
    defrostMode :=
      if shouldStartDefrost then true
      else if shouldEndDefrost then false else s.defrostMode
    compressorRunning :=
      if shouldStartDefrost then false
      else if !s.defrostMode || shouldEndDefrost then true else false
    evaporatorFan := if s.defrostMode then false else true
    doorSwitch := decide (rDoor < 1/10)
    alarmStatus := decide (caseTemp > 38) || s.defrostMode }

/-- `newValues` of the unnamed translated variant (lines 162-169). -/
def newValues (cur : Values) (inDefrost : Bool) (rand : ℕ → ℚ) : Values :=
  { caseTemp :=
      generateValue SIMULATION_CONFIG.caseTemp cur.caseTemp inDefrost
        (rand 0) (rand 1)
    suctionTemp :=
      generateValue SIMULATION_CONFIG.suctionTemp cur.suctionTemp inDefrost
        (rand 2) (rand 3)
    dischargeTemp :=
      generateValue SIMULATION_CONFIG.dischargeTemp cur.dischargeTemp
        inDefrost (rand 4) (rand 5)
    evaporatorTemp :=
      generateValue SIMULATION_CONFIG.evaporatorTemp cur.evaporatorTemp
        inDefrost (rand 6) (rand 7)
    txValvePosition :=
      generateValue SIMULATION_CONFIG.txValvePosition cur.txValvePosition
        inDefrost (rand 8) (rand 9)
    txValveSuperheat :=
      generateValue SIMULATION_CONFIG.txValveSuperheat cur.txValveSuperheat
        inDefrost (rand 10) (rand 11) }

/-- The `setData` updater of the unnamed translated variant
(lines 177-181). -/
def updateData (prevData : List Sample) (newDataPoint : Sample) :
    List Sample :=
  let updated := prevData ++ [newDataPoint]
  updated.drop (updated.length - 60)

/-- One full tick of the interval callback of the unnamed translated
variant (lines 145-185). -/
def tick (st : SimState) (now : ℤ) (rStart rEnd rDoor : ℚ)
    (rand : ℕ → ℚ) : SimState :=
  let nbs := newBinaryStates st.binaryStates st.currentValues.caseTemp
    rStart rEnd rDoor
  let nv := newValues st.currentValues nbs.defrostMode rand
  let newDataPoint : Sample := { timestamp := now, values := nv }
  { data := updateData st.data newDataPoint
    binaryStates := nbs
    currentValues := nv }

end File2

/-- The spec's defrost-mode formula, written from the spec's words:
`multiplier = 1.5 if baseline < 50 else 1.1`;
`next = previous + u * variance * multiplier` with `u` a uniform draw in
`[-0.3, 0.7)`, clamped at the upper bound only. -/
def specDefrostValue (config : ChannelConfig) (previousValue u : ℚ) : ℚ :=
  let multiplier : ℚ := if config.baseline < 50 then 3/2 else 11/10
  min config.max (previousValue + u * config.variance * multiplier)

/-- The spec's normal-mode formula, written from the spec's words:
`target = baseline + u1 * variance`;
`next = previous + (target - previous) * 0.3 + u2 * variance * 0.5` with
`u1`, `u2` uniform draws in `[-0.5, 0.5)`, clamped to `[min, max]`. -/
def specNormalValue (config : ChannelConfig) (previousValue u1 u2 : ℚ) : ℚ :=
  let target := config.baseline + u1 * config.variance
  let next := previousValue + (target - previousValue) * (3/10)
    + u2 * config.variance * (1/2)
  max config.min (min config.max next)

/-- Claim C2: for every pre-tick equipment state and every pair of random
draws deciding defrost start and defrost end (and any case temperature and
door draw), the `compressorRunning` flag computed by the tick transition
equals the logical negation of the post-transition `defrostMode` flag. -/
theorem compressor_negation_of_defrost (s : BinaryStates) (caseTemp : ℚ)
    (rStart rEnd rDoor : ℚ) :
    (File1.newBinaryStates s caseTemp rStart rEnd rDoor).compressorRunning
      = !(File1.newBinaryStates s caseTemp rStart rEnd rDoor).defrostMode := by
  rcases s with ⟨d, c, f, l, dr, a⟩
  by_cases h1 : rStart < 1/20 <;> by_cases h2 : rEnd < 3/10 <;>
    cases d <;> simp [File1.newBinaryStates, h1, h2]

/-- Claim C3: in defrost mode, the value generator returns
`min(max, previous + u * variance * multiplier)` where `u = r - 0.3` is a
uniform draw in `[-0.3, 0.7)` and `multiplier` is `1.5` if `baseline < 50`
and `1.1` otherwise; only the upper bound is applied, and there is an
in-range input on which the result falls below `min` (no lower clamp). -/
theorem defrost_formula_spec_equiv :
    (∀ (config : ChannelConfig) (previousValue r1 r2 : ℚ),
      File1.generateValue config previousValue true r1 r2
        = specDefrostValue config previousValue (r1 - 3/10)) ∧
    (∃ (config : ChannelConfig) (previousValue r1 : ℚ),
      0 ≤ r1 ∧ r1 < 1 ∧ config.min ≤ previousValue ∧
      File1.generateValue config previousValue true r1 0 < config.min) := by
  constructor
  · intro config previousValue r1 r2
    rfl
  · exact ⟨File1.SIMULATION_CONFIG.caseTemp, 32, 0, by norm_num, by norm_num,
      by norm_num [File1.SIMULATION_CONFIG],
      by norm_num [File1.generateValue, File1.SIMULATION_CONFIG]⟩

/-- Claim C5: in normal mode, the value generator computes
`target = baseline + u1 * variance` and
`next = previous + (target - previous) * 0.3 + u2 * variance * 0.5` with
`u1 = r1 - 0.5` and `u2 = r2 - 0.5` uniform draws in `[-0.5, 0.5)`, and
returns `next` clamped to `[min, max]`. -/
theorem normal_formula_spec_equiv (config : ChannelConfig)
    (previousValue r1 r2 : ℚ) :
    File1.generateValue config previousValue false r1 r2
      = specNormalValue config previousValue (r1 - 1/2) (r2 - 1/2) := by
  simp only [File1.generateValue, specNormalValue, Bool.false_eq_true,
    if_false]
  congr 1
  congr 1
  ring

/-- Claim C6: the evaporator fan and alarm flags are computed from
pre-transition inputs: the fan is on iff the pre-transition defrost flag is
false, and the alarm is active iff the latest known case temperature
exceeds 38 or the pre-transition defrost flag is true. -/
theorem fan_alarm_pre_transition (s : BinaryStates) (caseTemp : ℚ)
    (rStart rEnd rDoor : ℚ) :
    ((File1.newBinaryStates s caseTemp rStart rEnd rDoor).evaporatorFan
        = true ↔ s.defrostMode = false) ∧
    ((File1.newBinaryStates s caseTemp rStart rEnd rDoor).alarmStatus
        = true ↔ (38 < caseTemp ∨ s.defrostMode = true)) := by
  rcases s with ⟨d, c, f, l, dr, a⟩
  cases d <;> simp [File1.newBinaryStates]

/-- Claim C9: in normal mode the generated value lies in `[min, max]` for
every previous value (any channel configuration with `min ≤ max`),
including previous values outside `[min, max]`; hence one normal-mode tick
restores the channel bound after defrost has driven a value below `min`. -/
theorem normal_mode_restores_bounds (config : ChannelConfig)
    (previousValue r1 r2 : ℚ) (h : config.min ≤ config.max) :
    config.min ≤ File1.generateValue config previousValue false r1 r2 ∧
    File1.generateValue config previousValue false r1 r2 ≤ config.max := by
  simp only [File1.generateValue, Bool.false_eq_true, if_false]
  exact ⟨le_max_left _ _, max_le h (min_le_left _ _)⟩

/-- Witness for `normal_mode_restores_bounds`: for the case-temperature
channel, one normal-mode step from a previous value of 31.1 (below the
channel minimum 32, as defrost can produce) lands back inside `[32, 40]`. -/
theorem normal_mode_restores_bounds_witness :
    File1.SIMULATION_CONFIG.caseTemp.min
      ≤ File1.generateValue File1.SIMULATION_CONFIG.caseTemp (311/10) false
          (1/2) (1/2) ∧
    File1.generateValue File1.SIMULATION_CONFIG.caseTemp (311/10) false
        (1/2) (1/2) ≤ File1.SIMULATION_CONFIG.caseTemp.max :=
  normal_mode_restores_bounds File1.SIMULATION_CONFIG.caseTemp (311/10)
    (1/2) (1/2) (by norm_num [File1.SIMULATION_CONFIG])

/-- Claim C10: the two source files implement the same simulator core:
their configurations, value generators, bootstrap loops, binary-state
transitions, per-tick value maps, history updaters, and full tick
transitions are extensionally equal. -/
theorem two_files_same_core :
    File1.SIMULATION_CONFIG = File2.SIMULATION_CONFIG ∧
    File1.generateValue = File2.generateValue ∧
    File1.initialData = File2.initialData ∧
    File1.newBinaryStates = File2.newBinaryStates ∧
    File1.newValues = File2.newValues ∧
    File1.updateData = File2.updateData ∧
    File1.tick = File2.tick :=
  ⟨rfl, rfl, rfl, rfl, rfl, rfl, rfl⟩

/-- Claim C1 counterexample: for the case-temperature channel, with the
previous value 32 inside `[32, 40]` and a defrost-mode tick whose draw is
0 (a legal draw in `[0, 1)`), the generated value is 31.1, below the
channel minimum; the same value is stored in the Sample produced by a full
tick that stays in defrost. -/
theorem sample_bounds_counterexample :
    File1.SIMULATION_CONFIG.caseTemp.min ≤ (32 : ℚ) ∧
    (32 : ℚ) ≤ File1.SIMULATION_CONFIG.caseTemp.max ∧
    ((0 : ℚ) ≤ 0 ∧ (0 : ℚ) < 1) ∧
    File1.generateValue File1.SIMULATION_CONFIG.caseTemp 32 true 0 0
      = 311/10 ∧
    (311 : ℚ)/10 < File1.SIMULATION_CONFIG.caseTemp.min ∧
    ((File1.tick
        { data := []
          binaryStates :=
            { defrostMode := true, compressorRunning := false
              evaporatorFan := false, caseLight := true
              doorSwitch := false, alarmStatus := true }
          currentValues :=
            { caseTemp := 32, suctionTemp := 20, dischargeTemp := 140
              evaporatorTemp := 28, txValvePosition := 45
              txValveSuperheat := 8 } }
        0 (1/2) (1/2) (1/2) (fun _ => 0)).data.map
      (fun s => s.values.caseTemp)) = [311/10] := by
  refine ⟨by norm_num [File1.SIMULATION_CONFIG],
    by norm_num [File1.SIMULATION_CONFIG], ⟨le_refl 0, by norm_num⟩,
    by norm_num [File1.generateValue, File1.SIMULATION_CONFIG],
    by norm_num [File1.SIMULATION_CONFIG], ?_⟩
  norm_num [File1.tick, File1.newBinaryStates, File1.newValues,
    File1.updateData, File1.generateValue, File1.SIMULATION_CONFIG]

/-- Claim C1 as amended: for every channel configuration with
`min ≤ max`, every previous value within `[min, max]`, and every tick, the
normal-mode value lies in `[min, max]`, while the defrost-mode value is
only guaranteed to satisfy `value ≤ max` (it can fall below `min`). -/
theorem sample_bounds_amended (config : ChannelConfig)
    (previousValue r1 r2 : ℚ) (hmm : config.min ≤ config.max)
    (_h1 : config.min ≤ previousValue) (_h2 : previousValue ≤ config.max) :
    (config.min ≤ File1.generateValue config previousValue false r1 r2 ∧
     File1.generateValue config previousValue false r1 r2 ≤ config.max) ∧
    File1.generateValue config previousValue true r1 r2 ≤ config.max := by
  refine ⟨?_, ?_⟩
  · simp only [File1.generateValue, Bool.false_eq_true, if_false]
    exact ⟨le_max_left _ _, max_le hmm (min_le_left _ _)⟩
  · simp only [File1.generateValue, if_true]
    exact min_le_left _ _

/-- Witness for `sample_bounds_amended` at the case-temperature channel,
previous value 35 and draws 1/2. -/
theorem sample_bounds_amended_witness :
    ((File1.SIMULATION_CONFIG.caseTemp.min
        ≤ File1.generateValue File1.SIMULATION_CONFIG.caseTemp 35 false
            (1/2) (1/2) ∧
      File1.generateValue File1.SIMULATION_CONFIG.caseTemp 35 false
          (1/2) (1/2) ≤ File1.SIMULATION_CONFIG.caseTemp.max) ∧
     File1.generateValue File1.SIMULATION_CONFIG.caseTemp 35 true
         (1/2) (1/2) ≤ File1.SIMULATION_CONFIG.caseTemp.max) :=
  sample_bounds_amended File1.SIMULATION_CONFIG.caseTemp 35 (1/2) (1/2)
    (by norm_num [File1.SIMULATION_CONFIG])
    (by norm_num [File1.SIMULATION_CONFIG])
    (by norm_num [File1.SIMULATION_CONFIG])

/-- Claim C4 counterexample: in defrost mode with the case-temperature
channel, previous value 35, and the legal draw 0, the generated value is
34.1 < 35: the defrost generator is not one-directional. -/
theorem defrost_monotone_counterexample :
    ((0 : ℚ) ≤ 0 ∧ (0 : ℚ) < 1) ∧
    File1.generateValue File1.SIMULATION_CONFIG.caseTemp 35 true 0 0
      = 341/10 ∧
    (341 : ℚ)/10 < 35 :=
  ⟨⟨le_refl 0, by norm_num⟩,
    by norm_num [File1.generateValue, File1.SIMULATION_CONFIG],
    by norm_num⟩

/-- Claim C4 as amended: the defrost-mode drift is upward biased but not
monotone: the next value is greater than or equal to the previous value
whenever the draw is at least 0.3 (so the increment is nonnegative, given
nonnegative variance) and the previous value does not exceed `max`; draws
below 0.3 can lower the value. -/
theorem defrost_rise_amended (config : ChannelConfig)
    (previousValue r1 r2 : ℚ) (hv : 0 ≤ config.variance)
    (hr : 3/10 ≤ r1) (hp : previousValue ≤ config.max) :
    previousValue ≤ File1.generateValue config previousValue true r1 r2 := by
  simp only [File1.generateValue, if_true]
  have hm : (0 : ℚ) ≤ if config.baseline < 50 then (3 : ℚ)/2 else 11/10 := by
    split_ifs <;> norm_num
  refine le_min hp ?_
  nlinarith [mul_nonneg (mul_nonneg (sub_nonneg.mpr hr) hv) hm]

/-- Witness for `defrost_rise_amended` at the case-temperature channel,
previous value 35 and draw 1/2. -/
theorem defrost_rise_amended_witness :
    (35 : ℚ) ≤ File1.generateValue File1.SIMULATION_CONFIG.caseTemp 35 true
      (1/2) 0 :=
  defrost_rise_amended File1.SIMULATION_CONFIG.caseTemp 35 (1/2) 0
    (by norm_num [File1.SIMULATION_CONFIG]) (by norm_num)
    (by norm_num [File1.SIMULATION_CONFIG])

/-- The history updater keeps `min (length + 1) 60` samples. -/
lemma length_updateData (h : List Sample) (x : Sample) :
    (File1.updateData h x).length = min (h.length + 1) 60 := by
  simp [File1.updateData]
  omega

/-- At capacity, the history updater drops the oldest sample and appends
the new one. -/
lemma updateData_at_capacity (h : List Sample) (x : Sample)
    (hl : h.length = 60) :
    File1.updateData h x = h.tail ++ [x] := by
  rcases h with _ | ⟨a, t⟩
  · simp at hl
  · have ht : t.length = 59 := by simpa using hl
    simp [File1.updateData, ht]

/-- Folding ticks from a full history keeps the last 60 of the appended
stream. -/
lemma foldl_updateData (xs : List Sample) :
    ∀ h : List Sample, h.length = 60 →
      List.foldl File1.updateData h xs = (h ++ xs).drop xs.length := by
  induction xs with
  | nil =>
    intro h hl
    simp
  | cons x t ih =>
    intro h hl
    rw [List.foldl_cons, ih _ (by rw [length_updateData, hl]; omega),
      updateData_at_capacity h x hl]
    rcases h with _ | ⟨a, hs⟩
    · simp at hl
    · simp only [List.tail_cons, List.cons_append, List.length_cons,
        List.drop_succ_cons, List.append_assoc, List.singleton_append,
        List.nil_append]

/-- Length of the bootstrap history. -/
lemma initialData_length (now : ℤ) (rand : ℕ → ℚ) :
    (File1.initialData now rand).length = 60 := by
  simp [File1.initialData]

/-- Claim C7: the history never exceeds 60 samples: each tick appends
exactly one sample, evicting the oldest (FIFO) when the length would
exceed 60; and starting from a fresh 60-sample bootstrap, after 61 ticks
every bootstrap sample (in particular the first) has been evicted — the
history is exactly the last 60 of the 61 new samples. -/
theorem history_capacity_fifo :
    (∀ (h : List Sample) (x : Sample), h.length ≤ 60 →
      (File1.updateData h x).length ≤ 60) ∧
    (∀ (h : List Sample) (x : Sample), h.length < 60 →
      File1.updateData h x = h ++ [x]) ∧
    (∀ (h : List Sample) (x : Sample), h.length = 60 →
      File1.updateData h x = h.tail ++ [x]) ∧
    (∀ (now : ℤ) (rand : ℕ → ℚ) (xs : List Sample), xs.length = 61 →
      List.foldl File1.updateData (File1.initialData now rand) xs
        = xs.tail) := by
  refine ⟨?_, ?_, updateData_at_capacity, ?_⟩
  · intro h x hl
    rw [length_updateData]
    omega
  · intro h x hl
    have h0 : (h ++ [x]).length - 60 = 0 := by
      simp only [List.length_append, List.length_singleton]
      omega
    simp only [File1.updateData, h0, List.drop_zero]
  · intro now rand xs hl
    rw [foldl_updateData xs _ (initialData_length now rand), hl]
    have h60 : (File1.initialData now rand).length = 60 :=
      initialData_length now rand
    rw [show (61 : ℕ) = 60 + 1 by rfl, ← List.drop_drop,
      List.drop_left' h60, List.drop_one]

/-- Witness for `history_capacity_fifo`: a full 60-sample history stays at
60 samples and drops its head on update, and 61 ticks from a concrete
bootstrap leave exactly the last 60 new samples. -/
theorem history_capacity_fifo_witness :
    (File1.updateData
        (List.replicate 60 (Sample.mk 0 (Values.mk 35 20 140 28 45 8)))
        (Sample.mk 1 (Values.mk 35 20 140 28 45 8))).length ≤ 60 ∧
    File1.updateData
        (List.replicate 60 (Sample.mk 0 (Values.mk 35 20 140 28 45 8)))
        (Sample.mk 1 (Values.mk 35 20 140 28 45 8))
      = (List.replicate 60
          (Sample.mk 0 (Values.mk 35 20 140 28 45 8))).tail
        ++ [Sample.mk 1 (Values.mk 35 20 140 28 45 8)] ∧
    List.foldl File1.updateData (File1.initialData 0 (fun _ => 1/2))
        (List.replicate 61 (Sample.mk 7 (Values.mk 35 20 140 28 45 8)))
      = (List.replicate 61 (Sample.mk 7 (Values.mk 35 20 140 28 45 8))).tail :=
  ⟨history_capacity_fifo.1 _ _ (by simp),
    history_capacity_fifo.2.2.1 _ _ (by simp),
    history_capacity_fifo.2.2.2 0 (fun _ => 1/2) _ (by simp)⟩

/-- The bootstrap sample at index `j` (for `j < 60`): timestamp
`now - (60 - j) * 5000` and each channel at its baseline plus the jitter
drawn for that iteration. -/
lemma initialData_get (now : ℤ) (rand : ℕ → ℚ) (j : ℕ) (hj : j < 60) :
    (File1.initialData now rand).get
        ⟨j, by rw [initialData_length]; exact hj⟩
      = { timestamp := now - ((60 : ℤ) - (j : ℤ)) * 5000
          values :=
            { caseTemp := 35 + (rand (6 * j) - 1/2) * 2
              suctionTemp := 20 + (rand (6 * j + 1) - 1/2) * 2
              dischargeTemp := 140 + (rand (6 * j + 2) - 1/2) * 5
              evaporatorTemp := 28 + (rand (6 * j + 3) - 1/2) * 2
              txValvePosition := 45 + (rand (6 * j + 4) - 1/2) * 10
              txValveSuperheat := 8 + (rand (6 * j + 5) - 1/2) * 2 } } := by
  simp [File1.initialData, List.get_eq_getElem]

/-- Claim C8 counterexample: at `now = 0` (with the constant draw 1/2),
the last bootstrap sample's timestamp is `-5000`, not `0`: the bootstrap
history ends 5 seconds before `now`, not at `now`. -/
theorem bootstrap_endpoint_counterexample :
    ((File1.initialData 0 (fun _ => 1/2)).map Sample.timestamp).getLast?
      = some (-5000) ∧ ((-5000 : ℤ) ≠ (0 : ℤ)) := by
  constructor
  · rw [List.getLast?_eq_getElem?]
    simp [File1.initialData]
  · norm_num

/-- Claim C8 as amended: the bootstrap synthesizes exactly 60 samples with
timestamps spaced exactly 5 seconds apart, ending 5 seconds before `now`
(from `now - 300000` ms to `now - 5000` ms); each channel value is its
baseline plus an independent uniform jitter (not the smoothed-walk
formula); with case-temperature baseline 35 and variance 2, every
bootstrap case-temperature value lies in `[33, 37]`. -/
theorem bootstrap_characterization (now : ℤ) (rand : ℕ → ℚ)
    (hr : ∀ n, 0 ≤ rand n ∧ rand n < 1) :
    (File1.initialData now rand).length = 60 ∧
    (∀ j : Fin 60,
      (File1.initialData now rand).get
          ⟨(j : ℕ), by rw [initialData_length]; exact j.isLt⟩
        = { timestamp := now - ((60 : ℤ) - ((j : ℕ) : ℤ)) * 5000
            values :=
              { caseTemp := 35 + (rand (6 * (j : ℕ)) - 1/2) * 2
                suctionTemp := 20 + (rand (6 * (j : ℕ) + 1) - 1/2) * 2
                dischargeTemp := 140 + (rand (6 * (j : ℕ) + 2) - 1/2) * 5
                evaporatorTemp := 28 + (rand (6 * (j : ℕ) + 3) - 1/2) * 2
                txValvePosition := 45 + (rand (6 * (j : ℕ) + 4) - 1/2) * 10
                txValveSuperheat := 8 + (rand (6 * (j : ℕ) + 5) - 1/2) * 2 } }) ∧
    (∀ j : Fin 59,
      ((File1.initialData now rand).get
          ⟨(j : ℕ) + 1, by rw [initialData_length]; omega⟩).timestamp
        - ((File1.initialData now rand).get
          ⟨(j : ℕ), by rw [initialData_length]; omega⟩).timestamp = 5000) ∧
    (((File1.initialData now rand).get
        ⟨59, by rw [initialData_length]; omega⟩).timestamp = now - 5000 ∧
     ((File1.initialData now rand).get
        ⟨0, by rw [initialData_length]; omega⟩).timestamp = now - 300000) ∧
    (∀ s ∈ File1.initialData now rand,
      33 ≤ s.values.caseTemp ∧ s.values.caseTemp ≤ 37) := by
  refine ⟨initialData_length now rand,
    fun j => initialData_get now rand (j : ℕ) j.isLt, ?_, ⟨?_, ?_⟩, ?_⟩
  · intro j
    have hj : (j : ℕ) < 59 := j.isLt
    rw [initialData_get now rand ((j : ℕ) + 1) (by omega),
      initialData_get now rand (j : ℕ) (by omega)]
    push_cast
    ring
  · rw [initialData_get now rand 59 (by omega)]
    norm_num
  · rw [initialData_get now rand 0 (by omega)]
    norm_num
  · intro s hs
    simp only [File1.initialData, List.mem_map, List.mem_range] at hs
    obtain ⟨j, hj, rfl⟩ := hs
    obtain ⟨h0, h1⟩ := hr (6 * j)
    constructor <;> simp only [] <;> linarith

/-- Witness for `bootstrap_characterization` at `now = 0` with the
constant draw 1/2: 60 samples, first at `-300000` ms and last at
`-5000` ms. -/
theorem bootstrap_characterization_witness :
    (File1.initialData 0 (fun _ => 1/2)).length = 60 ∧
    (((File1.initialData 0 (fun _ => 1/2)).get
        ⟨59, by rw [initialData_length]; omega⟩).timestamp
      = (0 : ℤ) - 5000 ∧
     ((File1.initialData 0 (fun _ => 1/2)).get
        ⟨0, by rw [initialData_length]; omega⟩).timestamp
      = (0 : ℤ) - 300000) :=
  ⟨(bootstrap_characterization 0 (fun _ => 1/2)
      (fun n => ⟨by norm_num, by norm_num⟩)).1,
    (bootstrap_characterization 0 (fun _ => 1/2)
      (fun n => ⟨by norm_num, by norm_num⟩)).2.2.2.1⟩
